import Mathlib

/-!
# AR/VR Display Calibrator — verification of the color-correction preview core

A shallow embedding of the calibration core of the repository
`Haeseong-Kwon/AR-VR-Display-Calibrator`:

* the parameter store held by the calibrate page (React `useState` fields and
  the remote-control broadcast listener);
* the remote page's command construction (`sendCommand`);
* the synthetic pattern generator (`PatternCanvas.tsx`, `drawGrayscale`);
* the per-pixel color-transform chain and split-view rendering of
  `LivePreview.tsx` (brightness, contrast, gamma, color-temperature tint,
  final clamp, byte storage into a `Uint8ClampedArray`).

Machine numbers of the source (JS `number`) are embedded as `ℚ` where the
code only adds, compares and clamps, and as `ℝ` where the code calls
`Math.pow` with a fractional exponent (the gamma stage).
-/

namespace Calibrator

/-! ## ParameterStore: the calibrate page's state and the remote listener

The calibrate page (`src/unnamed/part_000`) holds the authoritative state in
`useState` hooks: `patternType`, `brightness`, `contrast`, `gamma`,
`temperature`, `viewMode`.  In the TypeScript source `patternType` is
declared with the union type `'grayscale' | 'colorchecker' | 'checkerboard'`,
but at run time it is a plain string and the remote listener can (and does)
store other strings into it, so the embedding keeps it as `String` and states
validity separately. -/

/-- The calibrate page's state (`useState` fields of `CalibratePage`). -/
structure Store where
  patternType : String
  brightness : ℚ
  contrast : ℚ
  gamma : ℚ
  temperature : ℚ
  viewMode : String
  deriving DecidableEq, Repr

/-- The initial state of `CalibratePage`:
`useState('grayscale')`, `useState(100)`, `useState(100)`, `useState(2.2)`,
`useState(6500)`, `useState('calibrate')`. -/
def initialStore : Store :=
  { patternType := "grayscale"
    brightness := 100
    contrast := 100
    gamma := 2.2
    temperature := 6500
    viewMode := "calibrate" }

/-- A delivered remote-control broadcast payload.  The listener reads only
`payload.type` and `payload.value`; every sender of an `ADJUST_*` command
supplies `value`, and the other senders' payloads never reach a branch that
reads it, so `value` is kept as a plain field (defaulting to 0). -/
structure Msg where
  type : String
  value : ℚ := 0
  deriving DecidableEq, Repr

/-- The object literal the remote page passes to `sendCommand` as `payload`;
each key may or may not be present. -/
structure CmdArgs where
  type : Option String := none
  value : Option ℚ := none
  deriving DecidableEq, Repr

/-- `RemotePage.sendCommand` (`src/app/remote/page.tsx` lines 38–45) builds
the broadcast payload as the object literal `{ type, ...payload }`: the
`type` argument is written first and the spread of `payload` follows, so a
`type` key present in `payload` overwrites the command discriminator. -/
def sendCommand (ty : String) (args : CmdArgs) : Msg :=
  { type := args.type.getD ty
    value := args.value.getD 0 }

/-- The remote-control broadcast listener of `CalibratePage`
(`src/unnamed/part_000` lines 63–77), applied to one delivered payload:

* `payload.type === 'SET_PATTERN'` → `setPatternType(payload.type)` and
  `setViewMode('calibrate')` (note: the branch stores `payload.type`, not a
  `patternId` field);
* `payload.type === 'ADJUST_BRIGHTNESS'` →
  `setBrightness(prev => Math.min(200, Math.max(0, prev + payload.value)))`;
* `payload.type === 'ADJUST_CONTRAST'` → the same for contrast;
* `payload.type === 'RESET'` → `setBrightness(100)`, `setContrast(100)`,
  `setGamma(2.2)`, `setTemperature(6500)`;
* any other `payload.type` matches no branch and the state is untouched. -/
def applyRemote (m : Msg) (s : Store) : Store :=
  if m.type = "SET_PATTERN" then
    { s with patternType := m.type, viewMode := "calibrate" }
  else if m.type = "ADJUST_BRIGHTNESS" then
    { s with brightness := min 200 (max 0 (s.brightness + m.value)) }
  else if m.type = "ADJUST_CONTRAST" then
    { s with contrast := min 200 (max 0 (s.contrast + m.value)) }
  else if m.type = "RESET" then
    { s with brightness := 100, contrast := 100, gamma := 2.2, temperature := 6500 }
  else
    s

/-- The three pattern identifiers the TypeScript union type
`'grayscale' | 'colorchecker' | 'checkerboard'` declares for `patternType`. -/
def validPattern (id : String) : Prop :=
  id = "grayscale" ∨ id = "colorchecker" ∨ id = "checkerboard"

instance (id : String) : Decidable (validPattern id) := by
  unfold validPattern; infer_instance

/-- The store mutation behind the gamma slider: `setGamma` is the raw
`useState` setter, so it stores whatever number it is handed
(`PatternControls.tsx` line 116: `setGamma(parseFloat(e.target.value))`). -/
def setGammaStore (v : ℚ) (s : Store) : Store :=
  { s with gamma := v }

/-- The gamma control as wired in `PatternControls.tsx` lines 110–118: a
range input with `min="1.0"`, `max="3.0"`.  A range input's value is kept
inside `[min, max]` by the platform, so the handler
`setGamma(parseFloat(e.target.value))` only ever runs on a value clamped
into `[1, 3]`. -/
def gammaSliderSet (v : ℚ) (s : Store) : Store :=
  setGammaStore (min 3 (max 1 v)) s

/-! ## PatternGenerator: the grayscale ramp of `PatternCanvas.tsx`

`drawGrayscale` (`PatternCanvas.tsx` lines 40–48) partitions the width into
`steps = 256` vertical bands and fills band `i` with
`rgb(gray, gray, gray)` where `const gray = i`. -/

/-- `const steps = 256` of `drawGrayscale`. -/
def grayscaleSteps : ℕ := 256

/-- The gray level of band `i`: `const gray = i`. -/
def grayscaleGray (i : ℕ) : ℕ := i

/-- The solid fill color of band `i`: `rgb(gray, gray, gray)`. -/
def grayscaleBand (i : ℕ) : ℕ × ℕ × ℕ :=
  (grayscaleGray i, grayscaleGray i, grayscaleGray i)

/-- The gray level of band `i` as the spec words it:
`round(i * 255 / (steps - 1))`. -/
def specGrayLevel (steps i : ℕ) : ℤ :=
  round ((i * 255 : ℚ) / ((steps : ℚ) - 1))

/-! ## SplitViewCompositor: the split rule of `LivePreview.tsx`

The render effect computes `splitX = (sliderPosition / 100) * canvas.width`
(line 78) and, inside the per-pixel loop, `if (x < splitX) continue` skips
the transform for the left side, leaving the original pixel column (line 83).
`sliderPosition` is the boundary fraction scaled to a percentage in
`[0, 100]`. -/

/-- `const splitX = (sliderPosition / 100) * canvas.width`. -/
def splitX (slider : ℚ) (w : ℕ) : ℚ :=
  slider / 100 * w

/-- Which buffer a composited column shows. -/
inductive ColumnSrc where
  | original
  | transformed
  deriving DecidableEq, Repr

/-- The per-column outcome of the render loop: a column with `x < splitX` is
skipped (it keeps the original pixels), every other column is overwritten
with the transformed pixels. -/
def columnSource (slider : ℚ) (w x : ℕ) : ColumnSrc :=
  if (x : ℚ) < splitX slider w then ColumnSrc.original else ColumnSrc.transformed

/-! ## ColorTransformPipeline: the per-pixel value chain of `LivePreview.tsx`

Lines 87–116 of `LivePreview.tsx`, for one pixel's `r`, `g`, `b` (JS numbers,
embedded as `ℝ`; `Math.pow` on a nonnegative base is real exponentiation):

```
let r = data[i]; let g = data[i+1]; let b = data[i+2];
const brightnessMultiplier = previewParams.brightness / 100;
r *= brightnessMultiplier; g *= brightnessMultiplier; b *= brightnessMultiplier;
const cMult = (previewParams.contrast / 100) ** 2;
r = (r - 128) * cMult + 128; g = (g - 128) * cMult + 128; b = (b - 128) * cMult + 128;
const gammaCorrection = 1 / previewParams.gamma;
r = 255 * Math.pow(r / 255, gammaCorrection); ...
const tempOffset = (previewParams.temperature - 6500) / 1000;
r += tempOffset * 10; b -= tempOffset * 10;
```

(The unused `contrastFactor` computed on line 98 is dead code and has no
counterpart here.) -/

/-- The `previewParams` record handed to `LivePreview`. -/
structure Params where
  brightness : ℝ
  contrast : ℝ
  gamma : ℝ
  temperature : ℝ

/-- The `previewParams` built from the calibrate page's initial state. -/
noncomputable def defaultPreviewParams : Params :=
  { brightness := 100, contrast := 100, gamma := 2.2, temperature := 6500 }

/-- The pre-clamp value chain applied to one pixel's `(r, g, b)`, exactly as
the statements of lines 91–116 execute. -/
noncomputable def pipeline (p : Params) (r g b : ℝ) : ℝ × ℝ × ℝ :=
  let brightnessMultiplier := p.brightness / 100
  let r := r * brightnessMultiplier
  let g := g * brightnessMultiplier
  let b := b * brightnessMultiplier
  let cMult := (p.contrast / 100) ^ (2 : ℕ)
  let r := (r - 128) * cMult + 128
  let g := (g - 128) * cMult + 128
  let b := (b - 128) * cMult + 128
  let gammaCorrection := 1 / p.gamma
  let r := 255 * (r / 255) ^ gammaCorrection
  let g := 255 * (g / 255) ^ gammaCorrection
  let b := 255 * (b / 255) ^ gammaCorrection
  let tempOffset := (p.temperature - 6500) / 1000
  let r := r + tempOffset * 10
  let b := b - tempOffset * 10
  (r, g, b)

/-- The final clamp of lines 119–121: `Math.min(255, Math.max(0, v))`. -/
noncomputable def clampChannel (v : ℝ) : ℝ :=
  min 255 (max 0 v)

/-- The clamped pipeline: the single clamp applied once to each channel after
all four stages (lines 119–121). -/
noncomputable def clampedPipeline (p : Params) (r g b : ℝ) : ℝ × ℝ × ℝ :=
  (clampChannel (pipeline p r g b).1,
   clampChannel (pipeline p r g b).2.1,
   clampChannel (pipeline p r g b).2.2)

/-! The spec's four stages, written from the spec's own words
(§4.2 of the design document), to be compared with `pipeline`. -/

/-- Spec stage 1, brightness: multiply each channel by `brightness/100`. -/
noncomputable def brightnessStage (p : Params) (c : ℝ × ℝ × ℝ) : ℝ × ℝ × ℝ :=
  (c.1 * (p.brightness / 100), c.2.1 * (p.brightness / 100), c.2.2 * (p.brightness / 100))

/-- Spec stage 2, contrast: `c' = (c - 128) * f + 128` with
`f = (contrast/100)^2`. -/
noncomputable def contrastStage (p : Params) (c : ℝ × ℝ × ℝ) : ℝ × ℝ × ℝ :=
  ((c.1 - 128) * (p.contrast / 100) ^ (2 : ℕ) + 128,
   (c.2.1 - 128) * (p.contrast / 100) ^ (2 : ℕ) + 128,
   (c.2.2 - 128) * (p.contrast / 100) ^ (2 : ℕ) + 128)

/-- Spec stage 3, gamma: `c'' = 255 * (c'/255)^(1/gamma)`. -/
noncomputable def gammaStage (p : Params) (c : ℝ × ℝ × ℝ) : ℝ × ℝ × ℝ :=
  (255 * (c.1 / 255) ^ (1 / p.gamma),
   255 * (c.2.1 / 255) ^ (1 / p.gamma),
   255 * (c.2.2 / 255) ^ (1 / p.gamma))

/-- Spec stage 4, color-temperature tint:
`offset = (colorTemperatureK - 6500)/1000`; `R += offset*10`,
`B -= offset*10`, `G` unchanged. -/
noncomputable def tintStage (p : Params) (c : ℝ × ℝ × ℝ) : ℝ × ℝ × ℝ :=
  (c.1 + (p.temperature - 6500) / 1000 * 10,
   c.2.1,
   c.2.2 - (p.temperature - 6500) / 1000 * 10)

/-! ## Byte storage: `ImageData.data` is a `Uint8ClampedArray`

Lines 119–121 assign the clamped float into `data[i]`, `data[i+1]`,
`data[i+2]`.  `ImageData.data` is a `Uint8ClampedArray`, whose store
conversion is ECMAScript's `ToUint8Clamp`: clamp to `[0, 255]`, then round to
the nearest integer, resolving a tie (fractional part exactly ½) toward the
even neighbor.  `toUint8Clamp` transcribes that platform algorithm. -/

/-- ECMAScript `ToUint8Clamp` on a (non-NaN) number: if `v ≤ 0` then `0`;
if `255 ≤ v` then `255`; otherwise let `f = ⌊v⌋` and return `f + 1` when
`f + ½ < v`, `f` when `v < f + ½`, and at the tie `f` if `f` is even,
else `f + 1`. -/
noncomputable def toUint8Clamp (v : ℝ) : ℤ :=
  if v ≤ 0 then 0
  else if 255 ≤ v then 255
  else if (⌊v⌋ : ℝ) + 1 / 2 < v then ⌊v⌋ + 1
  else if v < (⌊v⌋ : ℝ) + 1 / 2 then ⌊v⌋
  else if Even ⌊v⌋ then ⌊v⌋ else ⌊v⌋ + 1

/-- The byte the render effect stores for one channel whose pre-clamp value
is `v`: the code clamps (`Math.min(255, Math.max(0, v))`, lines 119–121) and
the `Uint8ClampedArray` store converts.  The same function is applied to the
R, G and B sample of every transformed pixel. -/
noncomputable def storeChannel (v : ℝ) : ℤ :=
  toUint8Clamp (clampChannel v)

/-! ## The render loop of `LivePreview.tsx` (lines 81–123)

The pixel buffer is the flat `data` array (row-major, 4 samples per pixel);
the loop runs `y` over `0..height`, `x` over `0..width`, skips `x < splitX`,
and for a transformed pixel at flat base `i = (y*width + x)*4` reads
`data[i..i+2]`, runs the value chain and writes the three clamped results
back.  `data[i+3]` (alpha) is neither read nor written. -/

/-- One transformed pixel: read `data[i]`, `data[i+1]`, `data[i+2]`, run the
pipeline, clamp and store each of the three samples (lines 85–121). -/
noncomputable def writePixel (p : Params) (data : ℕ → ℝ) (i : ℕ) : ℕ → ℝ :=
  let rgb := pipeline p (data i) (data (i + 1)) (data (i + 2))
  Function.update
    (Function.update
      (Function.update data i ((storeChannel rgb.1 : ℤ) : ℝ))
      (i + 1) ((storeChannel rgb.2.1 : ℤ) : ℝ))
    (i + 2) ((storeChannel rgb.2.2 : ℤ) : ℝ)

/-- The double loop of lines 81–123 over a `w × h` buffer. -/
noncomputable def renderPass (p : Params) (w h : ℕ) (slider : ℚ) (data : ℕ → ℝ) : ℕ → ℝ :=
  (List.range h).foldl
    (fun d y =>
      (List.range w).foldl
        (fun d (x : ℕ) =>
          if (x : ℚ) < splitX slider w then d else writePixel p d ((y * w + x) * 4))
        d)
    data

/-- The same double loop, counting how many pixels the pass runs the
per-pixel transform on (the `else` branch of the `x < splitX` skip). -/
def transformCalls (w h : ℕ) (slider : ℚ) : ℕ :=
  (List.range h).foldl
    (fun n _y =>
      (List.range w).foldl
        (fun n (x : ℕ) => if (x : ℚ) < splitX slider w then n else n + 1)
        n)
    0

/-- The dependency list of the render `useEffect`
(`LivePreview.tsx` line 135): `[originalImage, previewParams,
sliderPosition]`.  React re-runs the effect whenever the list changes. -/
structure EffectDeps where
  originalImage : String
  previewParams : Params
  sliderPosition : ℚ

/-- React's rule for the render effect: it runs again exactly when the
dependency list differs from the previous render's. -/
def effectReruns (old new : EffectDeps) : Prop :=
  old ≠ new

/-! ## The value chain with JavaScript NaN semantics

`pipeline` above embeds `Math.pow` as total real exponentiation, which is
exact for a nonnegative base.  JavaScript, however, returns NaN from
`Math.pow` on a negative base with a non-integer exponent, and the contrast
stage can push a channel negative with in-range parameters (any
`contrast > 100` on a dark enough pixel), so the gamma stage can really
produce NaN.  NaN then passes through every later arithmetic step and
through `Math.min(255, Math.max(0, ·))` unchanged, and only the final
`Uint8ClampedArray` store turns it into the byte 0.  The definitions below
re-run the same statements of lines 87–121 while tracking NaN. -/

/-- A JavaScript number as this pipeline can observe it: NaN or a real
value.  (Infinities are unreachable here: all inputs are finite and
`Math.pow` is only reached with a nonzero finite exponent applied to a
finite base.) -/
inductive JsNum where
  | nan
  | num (v : ℝ)

/-- Lift a real operation over a JS number: every arithmetic primitive and
`Math.min`/`Math.max` with a NaN operand yields NaN, so a real function
lifts by NaN propagation. -/
def JsNum.map (f : ℝ → ℝ) : JsNum → JsNum
  | JsNum.nan => JsNum.nan
  | JsNum.num v => JsNum.num (f v)

/-- JavaScript `Math.pow` on the finite inputs this pipeline reaches: real
exponentiation on a nonnegative base; on a negative base a real result only
when the exponent is an integer (then it is the signed integer power), and
NaN otherwise. -/
noncomputable def jsPow (b e : ℝ) : JsNum :=
  if 0 ≤ b then JsNum.num (b ^ e)
  else if (⌊e⌋ : ℝ) = e then JsNum.num (b ^ ⌊e⌋)
  else JsNum.nan

/-- The per-pixel value chain of lines 87–121 with JavaScript number
semantics, per pixel: stages 1 and 2 are plain finite arithmetic; stage 3
is `Math.pow`; stage 4 and the final `Math.min(255, Math.max(0, ·))` clamp
propagate NaN.  The result is the post-clamp value of each channel exactly
as the code computes it before the array store. -/
noncomputable def jsClampedPipeline (p : Params) (r g b : ℝ) : JsNum × JsNum × JsNum :=
  let brightnessMultiplier := p.brightness / 100
  let r := r * brightnessMultiplier
  let g := g * brightnessMultiplier
  let b := b * brightnessMultiplier
  let cMult := (p.contrast / 100) ^ (2 : ℕ)
  let r := (r - 128) * cMult + 128
  let g := (g - 128) * cMult + 128
  let b := (b - 128) * cMult + 128
  let gammaCorrection := 1 / p.gamma
  let r2 := JsNum.map (fun v => 255 * v) (jsPow (r / 255) gammaCorrection)
  let g2 := JsNum.map (fun v => 255 * v) (jsPow (g / 255) gammaCorrection)
  let b2 := JsNum.map (fun v => 255 * v) (jsPow (b / 255) gammaCorrection)
  let tempOffset := (p.temperature - 6500) / 1000
  let r2 := JsNum.map (fun v => v + tempOffset * 10) r2
  let b2 := JsNum.map (fun v => v - tempOffset * 10) b2
  (JsNum.map clampChannel r2, JsNum.map clampChannel g2, JsNum.map clampChannel b2)

/-- The `Uint8ClampedArray` store conversion on a JS number: ECMAScript
`ToUint8Clamp` maps NaN to 0 and a real value through `toUint8Clamp`. -/
noncomputable def jsToUint8Clamp : JsNum → ℤ
  | JsNum.nan => 0
  | JsNum.num v => toUint8Clamp v

/-! ## Theorems -/

/-- C1: for each of R, G, B independently, the per-pixel value chain of
`LivePreview.tsx` is exactly the four-stage composition the spec describes:
brightness multiply, then the quadratic contrast recentering
`c' = (c - 128) * (contrast/100)^2 + 128`, then gamma
`c'' = 255 * (c'/255)^(1/gamma)`, then the color-temperature tint
(`R += offset*10`, `B -= offset*10`, `G` unchanged, with
`offset = (temperature - 6500)/1000`), in this order. -/
theorem pipeline_is_four_stage_composition (p : Params) (r g b : ℝ) :
    pipeline p r g b = tintStage p (gammaStage p (contrastStage p (brightnessStage p (r, g, b)))) :=
  rfl

/-- C3: delivering a remote `SET_PATTERN` command does not make the store's
pattern selection the carried pattern id.  The remote page sends
`{ type, ...payload }` with `payload = { type: patternId }`, so the spread
overwrites the discriminator and the listener matches no branch (the store
is unchanged); and even a payload literally tagged `SET_PATTERN` makes the
listener store the string `"SET_PATTERN"` itself — not a pattern id — into
`patternType`, violating the union type the source declares for it. -/
theorem set_pattern_command_lost :
    applyRemote (sendCommand "SET_PATTERN" { type := some "checkerboard" }) initialStore
        = initialStore
    ∧ (sendCommand "SET_PATTERN" { type := some "checkerboard" }).type = "checkerboard"
    ∧ (applyRemote { type := "SET_PATTERN" } initialStore).patternType = "SET_PATTERN"
    ∧ ¬ validPattern (applyRemote { type := "SET_PATTERN" } initialStore).patternType := by
  refine ⟨rfl, rfl, rfl, ?_⟩
  decide

/-- C4 (counterexample): a remote `RESET` delivered in a state whose pattern
selection is `checkerboard` leaves the pattern selection `checkerboard`, not
`grayscale` — the `RESET` branch of the listener never touches
`patternType`. -/
theorem remote_reset_pattern_cex :
    (applyRemote { type := "RESET" }
        { patternType := "checkerboard", brightness := 40, contrast := 180,
          gamma := 1, temperature := 9000, viewMode := "preview" }).patternType
      ≠ "grayscale" := by
  decide

/-- C4 (amended): a remote `RESET` from any prior state restores
brightness = 100, contrast = 100, gamma = 2.2 and temperature = 6500, and
leaves the pattern selection (and view mode) exactly as they were. -/
theorem remote_reset_restores_numeric_defaults (s : Store) :
    applyRemote { type := "RESET" } s
      = { s with brightness := 100, contrast := 100, gamma := 2.2, temperature := 6500 } :=
  rfl

/-- C6: the composited surface shows the original pixels in every column
`x < boundaryFraction * width` and the transformed pixels in every other
column; boundary fraction 0 gives the transformed buffer everywhere,
boundary fraction 1 gives the original buffer everywhere, and boundary
fraction ½ on a 100-pixel-wide buffer puts column 49 in the original region
and column 50 in the transformed region.  (`boundaryFraction` is
`sliderPosition / 100`, so the slider value is `frac * 100`.) -/
theorem split_boundary_rule :
    (∀ (frac : ℚ) (w x : ℕ), (x : ℚ) < frac * w →
        columnSource (frac * 100) w x = ColumnSrc.original)
    ∧ (∀ (frac : ℚ) (w x : ℕ), ¬ (x : ℚ) < frac * w →
        columnSource (frac * 100) w x = ColumnSrc.transformed)
    ∧ (∀ w x : ℕ, columnSource 0 w x = ColumnSrc.transformed)
    ∧ (∀ w x : ℕ, x < w → columnSource 100 w x = ColumnSrc.original)
    ∧ columnSource 50 100 49 = ColumnSrc.original
    ∧ columnSource 50 100 50 = ColumnSrc.transformed := by
  have key : ∀ (frac : ℚ) (w : ℕ), splitX (frac * 100) w = frac * w := by
    intro frac w
    unfold splitX
    ring
  refine ⟨?_, ?_, ?_, ?_, ?_, ?_⟩
  · intro frac w x h
    simp [columnSource, key, h]
  · intro frac w x h
    simp [columnSource, key, h]
  · intro w x
    have : ¬ (x : ℚ) < splitX 0 w := by
      simp [splitX]
    simp [columnSource, this]
  · intro w x h
    have : (x : ℚ) < splitX 100 w := by
      simp [splitX]
      exact_mod_cast h
    simp [columnSource, this]
  · have : (49 : ℚ) < splitX 50 100 := by norm_num [splitX]
    simp [columnSource, this]
  · have : ¬ (50 : ℚ) < splitX 50 100 := by norm_num [splitX]
    simp [columnSource, this]

/-- C6 (witness): the boundary-pixel rule instantiated on the 100-pixel-wide
buffer at boundary fraction ½: column 49 shows the original buffer. -/
theorem split_boundary_rule_witness :
    columnSource ((1 / 2 : ℚ) * 100) 100 49 = ColumnSrc.original :=
  split_boundary_rule.1 (1 / 2) 100 49 (by norm_num)

/-- C7 (counterexample): the store performs no gamma validation — `setGamma`
is the raw state setter, so setting gamma to 0 replaces the previous valid
value 2.2 with 0 instead of rejecting the input. -/
theorem set_gamma_accepts_zero_cex :
    (setGammaStore 0 initialStore).gamma = 0
    ∧ initialStore.gamma = 2.2
    ∧ (setGammaStore 0 initialStore).gamma ≠ initialStore.gamma := by
  refine ⟨rfl, rfl, ?_⟩
  show (0 : ℚ) ≠ 2.2
  norm_num

/-- C7 (amended): the store accepts any gamma value without validation;
gamma ≤ 0 is kept out only by the UI, whose gamma range input clamps its
value into `[1.0, 3.0]`, so every slider-driven update stores a gamma that
is at least 1 — in particular nonzero, so the pipeline's `1 / gamma`
exponent is never a division by zero. -/
theorem gamma_slider_never_nonpositive (v : ℚ) (s : Store) :
    1 ≤ (gammaSliderSet v s).gamma ∧ (gammaSliderSet v s).gamma ≠ 0 := by
  have h1 : 1 ≤ (gammaSliderSet v s).gamma := by
    show (1 : ℚ) ≤ min 3 (max 1 v)
    exact le_min (by norm_num) (le_max_left 1 v)
  exact ⟨h1, by intro h0; rw [h0] at h1; norm_num at h1⟩

/-- C8: in the generated grayscale pattern, band `i` of the 256 default
steps carries gray level `round(i * 255 / (steps - 1))` in all three
channels; the leftmost band is exactly black, the rightmost band exactly
white, and the levels are monotonically non-decreasing left to right. -/
theorem grayscale_band_formula :
    (∀ i : ℕ, i < grayscaleSteps → (grayscaleGray i : ℤ) = specGrayLevel grayscaleSteps i)
    ∧ grayscaleBand 0 = (0, 0, 0)
    ∧ grayscaleBand (grayscaleSteps - 1) = (255, 255, 255)
    ∧ (∀ i j : ℕ, i ≤ j → grayscaleGray i ≤ grayscaleGray j) := by
  refine ⟨?_, rfl, rfl, fun i j h => h⟩
  intro i _
  have h255 : ((i : ℚ) * 255) / ((256 : ℚ) - 1) = (i : ℚ) := by
    norm_num
  unfold specGrayLevel grayscaleSteps grayscaleGray
  push_cast
  rw [h255, round_natCast]

/-- C8 (witness): the formula, black and white bounds and monotonicity
evaluated at the concrete bands 0 and 255. -/
theorem grayscale_band_formula_witness :
    (grayscaleGray 255 : ℤ) = specGrayLevel grayscaleSteps 255
    ∧ grayscaleGray 0 ≤ grayscaleGray 255 :=
  ⟨grayscale_band_formula.1 255 (by decide), grayscale_band_formula.2.2.2 0 255 (by decide)⟩

/-- `Math.pow` on a negative base with a non-integer exponent is NaN. -/
theorem jsPow_nan_of_neg_base (b e : ℝ) (hb : b < 0) (he : (⌊e⌋ : ℝ) ≠ e) :
    jsPow b e = JsNum.nan := by
  unfold jsPow
  rw [if_neg (not_le.mpr hb), if_neg he]

/-- `Math.pow` on a nonnegative base is real exponentiation. -/
theorem jsPow_of_nonneg_base (b e : ℝ) (hb : 0 ≤ b) :
    jsPow b e = JsNum.num (b ^ e) := by
  unfold jsPow
  rw [if_pos hb]

/-- A numeric value coming out of the `Math.min(255, Math.max(0, ·))` clamp
lies in `[0, 255]`. -/
theorem map_clamp_num (x : JsNum) (v : ℝ) (h : JsNum.map clampChannel x = JsNum.num v) :
    0 ≤ v ∧ v ≤ 255 := by
  cases x with
  | nan => exact absurd h (by simp [JsNum.map])
  | num u =>
    have hv : clampChannel u = v := by simpa [JsNum.map] using h
    rw [← hv]
    exact ⟨le_min (by norm_num) (le_max_left 0 u), min_le_left 255 _⟩

/-- `ToUint8Clamp` lands in `[0, 255]` on every real input. -/
theorem toUint8Clamp_range (v : ℝ) : 0 ≤ toUint8Clamp v ∧ toUint8Clamp v ≤ 255 := by
  unfold toUint8Clamp
  split_ifs with h1 h2 h3 h4 h5
  · exact ⟨le_refl 0, by norm_num⟩
  · exact ⟨by norm_num, le_refl 255⟩
  all_goals
    have h0 : (0 : ℝ) ≤ v := le_of_lt (lt_of_not_le h1)
  all_goals
    have hf0 : (0 : ℤ) ≤ ⌊v⌋ := Int.floor_nonneg.mpr h0
  all_goals
    have hf255 : ⌊v⌋ < 255 := Int.floor_lt.mpr (by push_cast; exact lt_of_not_le h2)
  all_goals
    exact ⟨by omega, by omega⟩

/-- `ToUint8Clamp` lands in `[0, 255]` on every JS number, NaN included. -/
theorem jsToUint8Clamp_range (x : JsNum) : 0 ≤ jsToUint8Clamp x ∧ jsToUint8Clamp x ≤ 255 := by
  cases x with
  | nan => exact ⟨le_refl 0, by show (0 : ℤ) ≤ 255; norm_num⟩
  | num v => exact toUint8Clamp_range v

/-- C5 (counterexample): with the in-range parameters brightness 100,
contrast 110, gamma 2.2, temperature 6500 (contrast 110 is the very value
the apply-AI-recommendation path sets), a black input channel reaches the
gamma stage with the negative base `((0·1 − 128)·1.21 + 128)/255 < 0`, so
`Math.pow` returns NaN, the `min`/`max` clamp passes NaN through, and the
post-clamp channel value is NaN — not a value in `[0, 255]`. -/
theorem clamp_nan_escape_cex :
    (jsClampedPipeline
        { brightness := 100, contrast := 110, gamma := 2.2, temperature := 6500 }
        0 0 0).1 = JsNum.nan
    ∧ ∀ v : ℝ,
        (jsClampedPipeline
            { brightness := 100, contrast := 110, gamma := 2.2, temperature := 6500 }
            0 0 0).1 ≠ JsNum.num v := by
  have hb : (((0 : ℝ) * ((100 : ℝ) / 100) - 128) * (((110 : ℝ) / 100) ^ (2 : ℕ)) + 128) / 255
      < 0 := by
    norm_num
  have h522 : (1 : ℝ) / (2.2 : ℝ) = 5 / 11 := by norm_num
  have hfl : ⌊(1 : ℝ) / (2.2 : ℝ)⌋ = 0 := by
    rw [h522]
    exact Int.floor_eq_zero_iff.mpr ⟨by norm_num, by norm_num⟩
  have he : (⌊(1 : ℝ) / (2.2 : ℝ)⌋ : ℝ) ≠ (1 : ℝ) / (2.2 : ℝ) := by
    rw [hfl, h522]
    norm_num
  have hnan :
      (jsClampedPipeline
          { brightness := 100, contrast := 110, gamma := 2.2, temperature := 6500 }
          0 0 0).1 = JsNum.nan := by
    simp only [jsClampedPipeline]
    rw [jsPow_nan_of_neg_base _ _ hb he]
    rfl
  exact ⟨hnan, fun v h => JsNum.noConfusion (hnan ▸ h)⟩

/-- C5 (amended): the single clamp applied once after the four stages bounds
every channel that is a number: whenever a channel of the NaN-tracking
value chain is a numeric value it lies in `[0, 255]`; the byte actually
stored for any channel — NaN included, which the `Uint8ClampedArray` store
maps to 0 — lies in `[0, 255]`; and whenever all three channels reach the
gamma stage with a nonnegative base, the NaN-tracking chain agrees with
the real-valued `clampedPipeline`, so on that domain every post-clamp
channel is a real in `[0, 255]` as the spec states. -/
theorem js_clamp_bounds_numeric_channels (p : Params) (r g b : ℝ) :
    (∀ v : ℝ, (jsClampedPipeline p r g b).1 = JsNum.num v → 0 ≤ v ∧ v ≤ 255)
    ∧ (∀ v : ℝ, (jsClampedPipeline p r g b).2.1 = JsNum.num v → 0 ≤ v ∧ v ≤ 255)
    ∧ (∀ v : ℝ, (jsClampedPipeline p r g b).2.2 = JsNum.num v → 0 ≤ v ∧ v ≤ 255)
    ∧ (0 ≤ jsToUint8Clamp (jsClampedPipeline p r g b).1
        ∧ jsToUint8Clamp (jsClampedPipeline p r g b).1 ≤ 255)
    ∧ (0 ≤ jsToUint8Clamp (jsClampedPipeline p r g b).2.1
        ∧ jsToUint8Clamp (jsClampedPipeline p r g b).2.1 ≤ 255)
    ∧ (0 ≤ jsToUint8Clamp (jsClampedPipeline p r g b).2.2
        ∧ jsToUint8Clamp (jsClampedPipeline p r g b).2.2 ≤ 255)
    ∧ ((0 ≤ (contrastStage p (brightnessStage p (r, g, b))).1
        ∧ 0 ≤ (contrastStage p (brightnessStage p (r, g, b))).2.1
        ∧ 0 ≤ (contrastStage p (brightnessStage p (r, g, b))).2.2) →
        jsClampedPipeline p r g b
          = (JsNum.num (clampedPipeline p r g b).1,
             JsNum.num (clampedPipeline p r g b).2.1,
             JsNum.num (clampedPipeline p r g b).2.2)) := by
  refine ⟨?_, ?_, ?_, jsToUint8Clamp_range _, jsToUint8Clamp_range _, jsToUint8Clamp_range _, ?_⟩
  · intro v h
    exact map_clamp_num _ v h
  · intro v h
    exact map_clamp_num _ v h
  · intro v h
    exact map_clamp_num _ v h
  · rintro ⟨h1, h2, h3⟩
    have h1' : 0 ≤ (r * (p.brightness / 100) - 128) * ((p.contrast / 100) ^ (2 : ℕ)) + 128 := by
      simpa [contrastStage, brightnessStage] using h1
    have h2' : 0 ≤ (g * (p.brightness / 100) - 128) * ((p.contrast / 100) ^ (2 : ℕ)) + 128 := by
      simpa [contrastStage, brightnessStage] using h2
    have h3' : 0 ≤ (b * (p.brightness / 100) - 128) * ((p.contrast / 100) ^ (2 : ℕ)) + 128 := by
      simpa [contrastStage, brightnessStage] using h3
    simp only [jsClampedPipeline, clampedPipeline, pipeline,
      jsPow_of_nonneg_base _ _ (div_nonneg h1' (by norm_num : (0:ℝ) ≤ 255)),
      jsPow_of_nonneg_base _ _ (div_nonneg h2' (by norm_num : (0:ℝ) ≤ 255)),
      jsPow_of_nonneg_base _ _ (div_nonneg h3' (by norm_num : (0:ℝ) ≤ 255)),
      JsNum.map]

/-- C5 (witness): at the default parameters on a black pixel, the byte
stored for the first channel lies in `[0, 255]`. -/
theorem js_clamp_bounds_numeric_channels_witness :
    0 ≤ jsToUint8Clamp (jsClampedPipeline defaultPreviewParams 0 0 0).1
    ∧ jsToUint8Clamp (jsClampedPipeline defaultPreviewParams 0 0 0).1 ≤ 255 :=
  (js_clamp_bounds_numeric_channels defaultPreviewParams 0 0 0).2.2.2.1

/-- C10: the byte the render pass stores for a channel is the
`Uint8ClampedArray` conversion of the clamped value: an integer in
`[0, 255]` at distance at most ½ from the clamped value, and at an exact
tie (fractional part ½) an even integer — round to nearest, ties to even.
The very same `storeChannel` conversion produces the byte written for each
of the three color samples of every transformed pixel. -/
theorem stored_byte_rounds_ties_to_even :
    (∀ v : ℝ,
      0 ≤ storeChannel v
      ∧ storeChannel v ≤ 255
      ∧ |((storeChannel v : ℤ) : ℝ) - clampChannel v| ≤ 1 / 2
      ∧ (Int.fract (clampChannel v) = 1 / 2 → Even (storeChannel v)))
    ∧ (∀ (p : Params) (data : ℕ → ℝ) (i : ℕ),
        writePixel p data i i
            = ((storeChannel (pipeline p (data i) (data (i + 1)) (data (i + 2))).1 : ℤ) : ℝ)
        ∧ writePixel p data i (i + 1)
            = ((storeChannel (pipeline p (data i) (data (i + 1)) (data (i + 2))).2.1 : ℤ) : ℝ)
        ∧ writePixel p data i (i + 2)
            = ((storeChannel (pipeline p (data i) (data (i + 1))
                (data (i + 2))).2.2 : ℤ) : ℝ)) := by
  constructor
  · intro v
    have hc0 : 0 ≤ clampChannel v := le_min (by norm_num) (le_max_left 0 v)
    have hc255 : clampChannel v ≤ 255 := min_le_left 255 _
    have hsc : storeChannel v = toUint8Clamp (clampChannel v) := rfl
    set c := clampChannel v with hcdef
    rw [hsc]
    have hfl : ((⌊c⌋ : ℤ) : ℝ) ≤ c := Int.floor_le c
    have hfu : c < (⌊c⌋ : ℝ) + 1 := Int.lt_floor_add_one c
    have hfr : Int.fract c = c - (⌊c⌋ : ℝ) := rfl
    unfold toUint8Clamp
    split_ifs with h1 h2 h3 h4 h5
    · have hz : c = 0 := le_antisymm h1 hc0
      refine ⟨le_refl 0, by norm_num, ?_, fun _ => even_zero⟩
      rw [hz]
      norm_num
    · have hz : c = 255 := le_antisymm hc255 h2
      refine ⟨by norm_num, le_refl _, ?_, ?_⟩
      · rw [hz]
        norm_num
      · intro htie
        rw [hfr, hz] at htie
        have : ⌊(255 : ℝ)⌋ = 255 := by norm_num
        rw [this] at htie
        norm_num at htie
    · have hf0 : (0 : ℤ) ≤ ⌊c⌋ := Int.floor_nonneg.mpr hc0
      have hf255 : ⌊c⌋ < 255 := Int.floor_lt.mpr (by push_cast; linarith [lt_of_not_le h2])
      refine ⟨by omega, by omega, ?_, ?_⟩
      · rw [abs_le]
        push_cast
        constructor <;> linarith
      · intro htie
        rw [hfr] at htie
        linarith
    · have hf0 : (0 : ℤ) ≤ ⌊c⌋ := Int.floor_nonneg.mpr hc0
      have hf255 : ⌊c⌋ < 255 := Int.floor_lt.mpr (by push_cast; linarith [lt_of_not_le h2])
      refine ⟨by omega, by omega, ?_, ?_⟩
      · rw [abs_le]
        constructor <;> linarith
      · intro htie
        rw [hfr] at htie
        linarith
    · have hf0 : (0 : ℤ) ≤ ⌊c⌋ := Int.floor_nonneg.mpr hc0
      have hf255 : ⌊c⌋ < 255 := Int.floor_lt.mpr (by push_cast; linarith [lt_of_not_le h2])
      have heq : c = (⌊c⌋ : ℝ) + 1 / 2 := le_antisymm (not_lt.mp h3) (not_lt.mp h4)
      refine ⟨by omega, by omega, ?_, fun _ => h5⟩
      rw [abs_le]
      constructor <;> linarith
    · have hf0 : (0 : ℤ) ≤ ⌊c⌋ := Int.floor_nonneg.mpr hc0
      have hf255 : ⌊c⌋ < 255 := Int.floor_lt.mpr (by push_cast; linarith [lt_of_not_le h2])
      have heq : c = (⌊c⌋ : ℝ) + 1 / 2 := le_antisymm (not_lt.mp h3) (not_lt.mp h4)
      refine ⟨by omega, by omega, ?_, fun _ => Int.even_add_one.mpr h5⟩
      rw [abs_le]
      push_cast
      constructor <;> linarith
  · intro p data i
    refine ⟨?_, ?_, ?_⟩ <;>
      simp [writePixel, Function.update_apply]

/-- C10 (witness): the stored byte for the concrete channel value 100 on a
100-pixel value lies in `[0, 255]` and within ½ of the clamp. -/
theorem stored_byte_rounds_ties_to_even_witness :
    0 ≤ storeChannel 100
    ∧ |((storeChannel 100 : ℤ) : ℝ) - clampChannel 100| ≤ 1 / 2 :=
  ⟨(stored_byte_rounds_ties_to_even.1 100).1,
   (stored_byte_rounds_ties_to_even.1 100).2.2.1⟩

/-- A transformed pixel write at a base index `i` touches only the three
indices `i`, `i + 1`, `i + 2`. -/
theorem writePixel_apply_of_ne (p : Params) (data : ℕ → ℝ) (i j : ℕ)
    (h1 : j ≠ i) (h2 : j ≠ i + 1) (h3 : j ≠ i + 2) :
    writePixel p data i j = data j := by
  simp [writePixel, Function.update_apply, h1, h2, h3]

/-- The inner (x) loop of the render pass leaves every alpha sample
(`index % 4 = 3`) untouched: all its writes are at offsets 0, 1, 2 from a
base that is a multiple of 4. -/
theorem innerFold_alpha (p : Params) (slider : ℚ) (w y j : ℕ) (hj : j % 4 = 3) :
    ∀ (xs : List ℕ) (d : ℕ → ℝ),
      (xs.foldl
        (fun d (x : ℕ) =>
          if (x : ℚ) < splitX slider w then d else writePixel p d ((y * w + x) * 4)) d) j
        = d j := by
  intro xs
  induction xs with
  | nil => intro d; rfl
  | cons x xs ih =>
    intro d
    rw [List.foldl_cons, ih]
    by_cases hx : (x : ℚ) < splitX slider w
    · rw [if_pos hx]
    · rw [if_neg hx]
      exact writePixel_apply_of_ne p d _ j (by omega) (by omega) (by omega)

/-- C9: the transform pipeline never modifies the alpha channel — for every
source buffer, every parameter set and every split position, the render
pass leaves every alpha sample (flat index ≡ 3 mod 4) equal to the input's. -/
theorem alpha_channel_preserved (p : Params) (w h : ℕ) (slider : ℚ) (data : ℕ → ℝ)
    (j : ℕ) (hj : j % 4 = 3) :
    renderPass p w h slider data j = data j := by
  unfold renderPass
  generalize List.range h = ys
  induction ys generalizing data with
  | nil => rfl
  | cons y ys ih =>
    rw [List.foldl_cons, ih]
    exact innerFold_alpha p slider w y j hj (List.range w) data

/-- C9 (witness): on a 1×1 buffer holding 7 everywhere, a full-width render
pass leaves the alpha sample (index 3) at 7. -/
theorem alpha_channel_preserved_witness :
    renderPass defaultPreviewParams 1 1 0 (fun _ => 7) 3 = 7 :=
  alpha_channel_preserved defaultPreviewParams 1 1 0 (fun _ => 7) 3 rfl

/-- When no column is left of the split, the inner loop increments the
transform-call count once per column. -/
theorem innerFold_count_all (w : ℕ) (slider : ℚ)
    (hno : ∀ x : ℕ, ¬ (x : ℚ) < splitX slider w) :
    ∀ (xs : List ℕ) (n : ℕ),
      xs.foldl (fun n (x : ℕ) => if (x : ℚ) < splitX slider w then n else n + 1) n
        = n + xs.length := by
  intro xs
  induction xs with
  | nil => intro n; simp
  | cons x xs ih =>
    intro n
    rw [List.foldl_cons, if_neg (hno x), ih, List.length_cons]
    omega

/-- When no column is left of the split, the whole pass transforms exactly
`rows * width` pixels. -/
theorem outerFold_count_all (w : ℕ) (slider : ℚ)
    (hno : ∀ x : ℕ, ¬ (x : ℚ) < splitX slider w) :
    ∀ (ys : List ℕ) (n : ℕ),
      ys.foldl
        (fun n (_y : ℕ) =>
          (List.range w).foldl
            (fun n (x : ℕ) => if (x : ℚ) < splitX slider w then n else n + 1) n)
        n = n + ys.length * w := by
  intro ys
  induction ys with
  | nil => intro n; simp
  | cons y ys ih =>
    intro n
    rw [List.foldl_cons, innerFold_count_all w slider hno, ih, List.length_range,
      List.length_cons, Nat.succ_mul]
    omega

/-- C2 (amended): a change of the split-boundary fraction alone re-runs the
render effect (`sliderPosition` is in its dependency list), and the re-run
executes the per-pixel transform again for every column at or right of the
new boundary — with the boundary dragged to the left edge, for all
`width * height` pixels.  There is no boundary-only fast path. -/
theorem boundary_only_change_reruns_transform (img : String) (p : Params) (s : ℚ)
    (w h : ℕ) (hs : s ≠ 0) :
    effectReruns
        { originalImage := img, previewParams := p, sliderPosition := s }
        { originalImage := img, previewParams := p, sliderPosition := 0 }
    ∧ transformCalls w h 0 = w * h := by
  constructor
  · intro hEq
    exact hs (congrArg EffectDeps.sliderPosition hEq)
  · have hno : ∀ x : ℕ, ¬ (x : ℚ) < splitX 0 w := by
      intro x
      simp [splitX]
    unfold transformCalls
    rw [outerFold_count_all w 0 hno, List.length_range]
    ring

/-- C2 (witness): a drag from slider position 50 to 0 with identical image
and parameters re-runs the effect, and that run transforms all 16 pixels of
a 4×4 buffer. -/
theorem boundary_only_change_reruns_transform_witness :
    effectReruns
        { originalImage := "pattern", previewParams := defaultPreviewParams,
          sliderPosition := 50 }
        { originalImage := "pattern", previewParams := defaultPreviewParams,
          sliderPosition := 0 }
    ∧ transformCalls 4 4 0 = 4 * 4 :=
  boundary_only_change_reruns_transform "pattern" defaultPreviewParams 50 4 4 (by norm_num)

/-- C2 (counterexample): a dependency change in which only the slider
position differs (50 → 0, same image, same parameters) re-runs the render
effect, and the re-run executes the per-pixel transform 16 times on a 4×4
buffer — not zero times, contradicting the claimed drag fast path. -/
theorem boundary_only_change_cex :
    effectReruns
        { originalImage := "img", previewParams := defaultPreviewParams, sliderPosition := 50 }
        { originalImage := "img", previewParams := defaultPreviewParams, sliderPosition := 0 }
    ∧ transformCalls 4 4 0 = 16
    ∧ transformCalls 4 4 0 ≠ 0 := by
  have hno : ∀ x : ℕ, ¬ (x : ℚ) < splitX 0 4 := by
    intro x
    simp [splitX]
  have hcount : transformCalls 4 4 0 = 16 := by
    unfold transformCalls
    rw [outerFold_count_all 4 0 hno, List.length_range]
  refine ⟨?_, hcount, by rw [hcount]; omega⟩
  intro hEq
  have h50 : (50 : ℚ) = 0 := congrArg EffectDeps.sliderPosition hEq
  norm_num at h50

end Calibrator
